import Mathlib

/-!
Verification of the WebSocket-to-HTTP relay of the Face Recognition
platform (`backend/node_ws_server/index.js`).

The relay registers one `socket.on` handler per inbound event kind.
Each handler reads fields of the client payload, performs one upstream
axios call, and emits response / error / broadcast events.  We embed
each handler as a pure Lean function from the client payload (a
JavaScript value) and the upstream outcome (success body or failure
message) to the upstream request it issues (if any) and the ordered
list of events it emits.  JavaScript property access throws a
`TypeError` on `null`/`undefined` receivers; all other accesses yield
`undefined` when the key is missing.  The whole handler body sits in a
`try`/`catch`, with the `catch` emitting the `*-error` event, so a
throw anywhere in the body after some emits have happened appends the
error event to what was already emitted.
-/

/-- A JavaScript value, as exchanged in socket.io payloads and axios
bodies.  Numbers are modelled as rationals (the relay never computes
with them, it only copies them). -/
inductive JSVal where
  | undefined : JSVal
  | null : JSVal
  | bool : Bool → JSVal
  | num : Rat → JSVal
  | str : String → JSVal
  | arr : List JSVal → JSVal
  | obj : List (String × JSVal) → JSVal
deriving Repr

/-- JavaScript truthiness: `undefined`, `null`, `false`, `0` and `""`
are falsy; every object and array (even empty) is truthy. -/
def truthy : JSVal → Bool
  | .undefined => false
  | .null => false
  | .bool b => b
  | .num q => decide (q ≠ 0)
  | .str s => decide (s ≠ "")
  | .arr _ => true
  | .obj _ => true

/-- JavaScript `a || b`. -/
def jsOr (a b : JSVal) : JSVal := if truthy a then a else b

/-- JavaScript property access `v.k`.  Throws a `TypeError` when the
receiver is `null` or `undefined`; objects look the key up (missing
keys give `undefined`); arrays and strings expose `length`; other
primitives have no own properties. -/
def getField (v : JSVal) (k : String) : Except String JSVal :=
  match v with
  | .undefined =>
      .error ("TypeError: Cannot read properties of undefined (reading " ++ k ++ ")")
  | .null =>
      .error ("TypeError: Cannot read properties of null (reading " ++ k ++ ")")
  | .obj fs => .ok ((fs.lookup k).getD .undefined)
  | .arr xs => .ok (if k = "length" then .num xs.length else .undefined)
  | .str s => .ok (if k = "length" then .num s.length else .undefined)
  | _ => .ok .undefined

/-- Destination of a socket.io emit: `socket.emit` goes to the
originating connection only, `io.emit` is a broadcast to every
currently connected client (the originator included). -/
inductive Target where
  | toSender : Target
  | toAll : Target
deriving Repr, DecidableEq

/-- One emitted socket.io event: destination, event name, payload. -/
structure Emission where
  target : Target
  event : String
  payload : JSVal
deriving Repr

/-- The single upstream HTTP call a handler performs, with the data it
carries.  `deleteFace` interpolates the face id into the URL path. -/
inductive UpstreamRequest where
  | answerQuestion : JSVal → UpstreamRequest
  | registerFace : JSVal → UpstreamRequest
  | recognizeFaces : JSVal → UpstreamRequest
  | listFaces : UpstreamRequest
  | deleteFace : JSVal → UpstreamRequest
deriving Repr

/-- What one run of a handler does: the upstream request it issued
(`none` when a throw happened before the call) and the events it
emitted, in order. -/
structure HandlerResult where
  request : Option UpstreamRequest
  emissions : List Emission
deriving Repr

/-- Payload of every `*-error` event in the relay:
`{ message: <fixed human-readable text>, error: error.message }`. -/
def errObj (msg err : String) : JSVal :=
  .obj [("message", .str msg), ("error", .str err)]

/-- The `chat-error` emission of the `chat-message` catch block. -/
def chatErr (e : String) : Emission :=
  ⟨.toSender, "chat-error", errObj "Failed to process your question" e⟩

/-- Handler for `chat-message` (index.js lines 58-82).  Reads
`data.question`, POSTs `{question}` to `/answer-question`, and emits
`chat-response` with `{question, answer: response.data.answer,
sources: response.data.sources || []}`; any throw or upstream failure
is converted to `chat-error` by the catch block. -/
def chatMessageHandler (data : JSVal) (upstream : Except String JSVal) :
    HandlerResult :=
  match getField data "question" with
  | .error e => ⟨none, [chatErr e]⟩
  | .ok question =>
    let req := UpstreamRequest.answerQuestion (.obj [("question", question)])
    match upstream with
    | .error e => ⟨some req, [chatErr e]⟩
    | .ok respData =>
      match getField respData "answer", getField respData "sources" with
      | .ok answer, .ok sources =>
          ⟨some req,
           [⟨.toSender, "chat-response",
             .obj [("question", question), ("answer", answer),
                   ("sources", jsOr sources (.arr []))]⟩]⟩
      | .error e, _ => ⟨some req, [chatErr e]⟩
      | .ok _, .error e => ⟨some req, [chatErr e]⟩

/-- The `registration-error` emission of the `register-face` catch
block. -/
def regErr (e : String) : Emission :=
  ⟨.toSender, "registration-error", errObj "Failed to register face" e⟩

/-- Handler for `register-face` (index.js lines 85-118).  Reads
`data.name`, `data.image`, `data.metadata`, POSTs
`{name, image, metadata: data.metadata || {}}` to `/register-face`,
emits `registration-response` with `{success: true, id, name, message}`
copied from the upstream body, then broadcasts `new-face-registered`
with the client-supplied name and a timestamp. -/
def registerFaceHandler (data : JSVal) (upstream : Except String JSVal)
    (ts : String) : HandlerResult :=
  match getField data "name" with
  | .error e => ⟨none, [regErr e]⟩
  | .ok name =>
    match getField data "image", getField data "metadata" with
    | .error e, _ => ⟨none, [regErr e]⟩
    | .ok _, .error e => ⟨none, [regErr e]⟩
    | .ok image, .ok md =>
      let req := UpstreamRequest.registerFace
        (.obj [("name", name), ("image", image), ("metadata", jsOr md (.obj []))])
      match upstream with
      | .error e => ⟨some req, [regErr e]⟩
      | .ok respData =>
        match getField respData "id", getField respData "name",
              getField respData "message" with
        | .error e, _, _ => ⟨some req, [regErr e]⟩
        | .ok _, .error e, _ => ⟨some req, [regErr e]⟩
        | .ok _, .ok _, .error e => ⟨some req, [regErr e]⟩
        | .ok i, .ok n2, .ok m2 =>
            ⟨some req,
             [⟨.toSender, "registration-response",
               .obj [("success", .bool true), ("id", i), ("name", n2),
                     ("message", m2)]⟩,
              ⟨.toAll, "new-face-registered",
               .obj [("name", name), ("timestamp", .str ts)]⟩]⟩

/-- The `recognition-error` emission of the `recognize-faces` catch
block. -/
def recErr (e : String) : Emission :=
  ⟨.toSender, "recognition-error", errObj "Failed to recognize faces" e⟩

/-- Handler for `recognize-faces` (index.js lines 121-144).  Reads
`data.image`, POSTs `{image}` to `/recognize-faces`, emits
`recognition-response` with `{faces: response.data.faces, message:
response.data.message}`.  After the emit, still inside the `try`, the
log line evaluates `response.data.faces.length`; if that throws (the
success body has no `faces`), the catch block emits
`recognition-error` in addition to the already-sent response. -/
def recognizeFacesHandler (data : JSVal) (upstream : Except String JSVal) :
    HandlerResult :=
  match getField data "image" with
  | .error e => ⟨none, [recErr e]⟩
  | .ok image =>
    let req := UpstreamRequest.recognizeFaces (.obj [("image", image)])
    match upstream with
    | .error e => ⟨some req, [recErr e]⟩
    | .ok respData =>
      match getField respData "faces", getField respData "message" with
      | .error e, _ => ⟨some req, [recErr e]⟩
      | .ok _, .error e => ⟨some req, [recErr e]⟩
      | .ok faces, .ok message =>
        let resp : Emission :=
          ⟨.toSender, "recognition-response",
           .obj [("faces", faces), ("message", message)]⟩
        match getField faces "length" with
        | .ok _ => ⟨some req, [resp]⟩
        | .error e => ⟨some req, [resp, recErr e]⟩

/-- The `registered-users-error` emission of the `get-registered-users`
catch block. -/
def guErr (e : String) : Emission :=
  ⟨.toSender, "registered-users-error", errObj "Failed to get registered users" e⟩

/-- Handler for `get-registered-users` (index.js lines 147-167).  Takes
no payload, GETs `/faces`, emits `registered-users-response` with
`{users: response.data.faces || []}`.  The log line after the emit uses
the optional chain `response.data.faces?.length || 0`, which cannot
throw once the emit succeeded. -/
def getRegisteredUsersHandler (upstream : Except String JSVal) :
    HandlerResult :=
  let req := UpstreamRequest.listFaces
  match upstream with
  | .error e => ⟨some req, [guErr e]⟩
  | .ok respData =>
    match getField respData "faces" with
    | .error e => ⟨some req, [guErr e]⟩
    | .ok faces =>
        ⟨some req,
         [⟨.toSender, "registered-users-response",
           .obj [("users", jsOr faces (.arr []))]⟩]⟩

/-- The `delete-face-error` emission of the `delete-face` catch
block. -/
def delErr (e : String) : Emission :=
  ⟨.toSender, "delete-face-error", errObj "Failed to delete face" e⟩

/-- Handler for `delete-face` (index.js lines 170-198).  Reads
`data.faceId`, DELETEs `/delete-face/{faceId}`, emits
`delete-face-response` with `{success: true, message}` from the
upstream body, then broadcasts `face-deleted` with the face id and a
timestamp. -/
def deleteFaceHandler (data : JSVal) (upstream : Except String JSVal)
    (ts : String) : HandlerResult :=
  match getField data "faceId" with
  | .error e => ⟨none, [delErr e]⟩
  | .ok faceId =>
    let req := UpstreamRequest.deleteFace faceId
    match upstream with
    | .error e => ⟨some req, [delErr e]⟩
    | .ok respData =>
      match getField respData "message" with
      | .error e => ⟨some req, [delErr e]⟩
      | .ok m =>
          ⟨some req,
           [⟨.toSender, "delete-face-response",
             .obj [("success", .bool true), ("message", m)]⟩,
            ⟨.toAll, "face-deleted",
             .obj [("faceId", faceId), ("timestamp", .str ts)]⟩]⟩

/-- Number of broadcast (`io.emit`) events among a handler run's
emissions. -/
def broadcastCount (r : HandlerResult) : Nat :=
  (r.emissions.filter (fun e => e.target = Target.toAll)).length

/-- Connection identifiers. -/
abbrev ConnId := Nat

/-- socket.io delivery semantics: `socket.emit` reaches only the
originating connection, `io.emit` reaches every currently connected
client, the sender included. -/
def recipients (conns : List ConnId) (sender : ConnId) (e : Emission) :
    List ConnId :=
  match e.target with
  | .toSender => [sender]
  | .toAll => conns

/-- C1: the claimed invariant — every inbound event and every upstream
outcome yields exactly one terminal response event — is violated by the
code.  For a `recognize-faces` event whose upstream call succeeds with
a body lacking a `faces` field (e.g. `{message:"ok"}`), the handler
first emits `recognition-response` and then, because the log line
`response.data.faces.length` inside the `try` throws a TypeError after
the emit, the `catch` block also emits `recognition-error`: two
terminal events to the originating connection. -/
theorem c1_recognize_faces_double_terminal_event :
    (recognizeFacesHandler (.obj [("image", .str "frame")])
        (.ok (.obj [("message", .str "ok")]))).emissions =
      [⟨.toSender, "recognition-response",
        .obj [("faces", .undefined), ("message", .str "ok")]⟩,
       ⟨.toSender, "recognition-error",
        errObj "Failed to recognize faces"
          "TypeError: Cannot read properties of undefined (reading length)"⟩] ∧
    ((recognizeFacesHandler (.obj [("image", .str "frame")])
        (.ok (.obj [("message", .str "ok")]))).emissions.filter
      (fun e => e.target = Target.toSender)).length = 2 := by
  exact ⟨rfl, rfl⟩

/-- C2: for every inbound event kind, when the upstream HTTP call fails
(axios rejects: network failure, non-2xx status, or timeout, surfacing
`error.message`), the handler emits exactly one corresponding `*-error`
event to the originating connection, carrying the fixed human-readable
`message` text and the underlying error text, and never the success
counterpart.  The handlers are total pure functions of the single
event, so a failure neither crashes the process nor affects the
handling of any subsequent event. -/
theorem c2_upstream_failure_single_error_event
    (fs : List (String × JSVal)) (e ts : String) :
    (chatMessageHandler (.obj fs) (.error e)).emissions = [chatErr e] ∧
    (registerFaceHandler (.obj fs) (.error e) ts).emissions = [regErr e] ∧
    (recognizeFacesHandler (.obj fs) (.error e)).emissions = [recErr e] ∧
    (getRegisteredUsersHandler (.error e)).emissions = [guErr e] ∧
    (deleteFaceHandler (.obj fs) (.error e) ts).emissions = [delErr e] := by
  refine ⟨?_, ?_, ?_, ?_, ?_⟩ <;>
    simp [chatMessageHandler, registerFaceHandler, recognizeFacesHandler,
      getRegisteredUsersHandler, deleteFaceHandler, getField]

/-- C3: for a `chat-message` event with payload `{question}`, when the
upstream POST succeeds with body `{answer, sources?}`, the relay emits
exactly one `chat-response` carrying the inbound question, the upstream
answer, and the upstream sources — defaulting to the empty sequence
when the body omits `sources` — and never `chat-error`. -/
theorem c3_chat_success_response (q ans : JSVal) (srcs : Option (List JSVal)) :
    chatMessageHandler (.obj [("question", q)])
      (.ok (.obj ([("answer", ans)] ++
        (match srcs with
         | some xs => [("sources", JSVal.arr xs)]
         | none => [])))) =
      ⟨some (.answerQuestion (.obj [("question", q)])),
       [⟨.toSender, "chat-response",
         .obj [("question", q), ("answer", ans),
               ("sources", .arr (srcs.getD []))]⟩]⟩ := by
  cases srcs <;> simp [chatMessageHandler, getField, jsOr, truthy, List.lookup]

/-- C4: on upstream success, `register-face` broadcasts exactly one
`new-face-registered` event and `delete-face` exactly one
`face-deleted` event; `chat-message`, `recognize-faces` and
`get-registered-users` broadcast nothing in any execution whatsoever;
and a broadcast is delivered to every currently connected client,
the originator included. -/
theorem c4_broadcast_policy (dfs rfs : List (String × JSVal)) (ts : String) :
    ((registerFaceHandler (.obj dfs) (.ok (.obj rfs)) ts).emissions.filter
        (fun e => e.target = Target.toAll) =
      [⟨.toAll, "new-face-registered",
        .obj [("name", (dfs.lookup "name").getD .undefined),
              ("timestamp", .str ts)]⟩]) ∧
    ((deleteFaceHandler (.obj dfs) (.ok (.obj rfs)) ts).emissions.filter
        (fun e => e.target = Target.toAll) =
      [⟨.toAll, "face-deleted",
        .obj [("faceId", (dfs.lookup "faceId").getD .undefined),
              ("timestamp", .str ts)]⟩]) ∧
    (∀ data upstream, broadcastCount (chatMessageHandler data upstream) = 0) ∧
    (∀ data upstream, broadcastCount (recognizeFacesHandler data upstream) = 0) ∧
    (∀ upstream, broadcastCount (getRegisteredUsersHandler upstream) = 0) ∧
    (∀ (conns : List ConnId) (sender c : ConnId) (ev : String) (p : JSVal),
      c ∈ conns → c ∈ recipients conns sender ⟨.toAll, ev, p⟩) := by
  refine ⟨?_, ?_, ?_, ?_, ?_, ?_⟩
  · simp [registerFaceHandler, getField]
  · simp [deleteFaceHandler, getField]
  · intro data upstream
    unfold chatMessageHandler
    (repeat' split) <;> simp [broadcastCount, chatErr]
  · intro data upstream
    unfold recognizeFacesHandler
    (repeat' split) <;> simp [broadcastCount, recErr]
  · intro upstream
    unfold getRegisteredUsersHandler
    (repeat' split) <;> simp [broadcastCount, guErr]
  · intro conns sender c ev p hc
    simpa [recipients] using hc

/-- Witness for C4 at concrete inputs: a broadcast reaches a connected
client other than the sender, and a concrete chat event broadcasts
nothing. -/
theorem c4_broadcast_policy_witness :
    (0 : ConnId) ∈ recipients [0, 1] 1 ⟨.toAll, "new-face-registered", .null⟩ ∧
    broadcastCount (chatMessageHandler .null (.ok .null)) = 0 :=
  ⟨(c4_broadcast_policy [] [] "t").2.2.2.2.2 [0, 1] 1 0 "new-face-registered"
      .null (by decide),
   (c4_broadcast_policy [] [] "t").2.2.1 .null (.ok .null)⟩

/-- C5: when the upstream DELETE fails (axios rejects, e.g. on a
non-2xx status), `delete-face` emits exactly one `delete-face-error`
with a non-empty `message` to the originating connection, and no
`face-deleted` broadcast is emitted to anyone. -/
theorem c5_delete_failure_no_broadcast
    (fs : List (String × JSVal)) (e ts : String) :
    (deleteFaceHandler (.obj fs) (.error e) ts).emissions =
      [⟨.toSender, "delete-face-error",
        .obj [("message", .str "Failed to delete face"), ("error", .str e)]⟩] ∧
    broadcastCount (deleteFaceHandler (.obj fs) (.error e) ts) = 0 ∧
    ("Failed to delete face" : String) ≠ "" := by
  refine ⟨?_, ?_, by decide⟩ <;>
    simp [deleteFaceHandler, getField, broadcastCount, delErr, errObj]

/-- C6: for a `recognize-faces` event with an encoded image, when the
upstream POST succeeds with body `{faces, message}` where `faces` is an
array, the relay emits exactly one `recognition-response` whose `faces`
field is that exact array, element for element, and whose `message`
equals the upstream message. -/
theorem c6_recognition_passthrough (img m : JSVal) (faces : List JSVal) :
    recognizeFacesHandler (.obj [("image", img)])
      (.ok (.obj [("faces", .arr faces), ("message", m)])) =
      ⟨some (.recognizeFaces (.obj [("image", img)])),
       [⟨.toSender, "recognition-response",
         .obj [("faces", .arr faces), ("message", m)]⟩]⟩ := by
  simp [recognizeFacesHandler, getField, List.lookup]

/-- C7: for `get-registered-users`, when the upstream GET succeeds with
body `{faces: []}` or with the `faces` field absent, the relay emits
`registered-users-response` with `users` equal to the empty sequence —
the success event, not `registered-users-error`. -/
theorem c7_empty_users_success :
    getRegisteredUsersHandler (.ok (.obj [("faces", .arr [])])) =
      ⟨some .listFaces,
       [⟨.toSender, "registered-users-response",
         .obj [("users", .arr [])]⟩]⟩ ∧
    getRegisteredUsersHandler (.ok (.obj [])) =
      ⟨some .listFaces,
       [⟨.toSender, "registered-users-response",
         .obj [("users", .arr [])]⟩]⟩ :=
  ⟨rfl, rfl⟩

/-- C8: whatever the client payload and upstream outcome, every emitted
`registration-response` and every emitted `delete-face-response` has
`success` equal to `true`: the flag is a literal on the success path
and every upstream failure takes the `*-error` path instead. -/
theorem c8_success_flag_always_true (data : JSVal)
    (upstream : Except String JSVal) (ts : String) (e : Emission) :
    (e ∈ (registerFaceHandler data upstream ts).emissions →
      e.event = "registration-response" →
      getField e.payload "success" = .ok (.bool true)) ∧
    (e ∈ (deleteFaceHandler data upstream ts).emissions →
      e.event = "delete-face-response" →
      getField e.payload "success" = .ok (.bool true)) := by
  constructor
  · intro hm he
    unfold registerFaceHandler at hm
    (repeat' split at hm) <;> simp_all [regErr, errObj] <;>
      rcases hm with rfl | rfl <;> simp_all [getField, List.lookup]
  · intro hm he
    unfold deleteFaceHandler at hm
    (repeat' split at hm) <;> simp_all [delErr, errObj] <;>
      rcases hm with rfl | rfl <;> simp_all [getField, List.lookup]

/-- Witness for C8: the `registration-response` actually emitted for a
concrete registration has `success = true`. -/
theorem c8_success_flag_always_true_witness :
    getField (JSVal.obj [("success", .bool true), ("id", .undefined),
      ("name", .undefined), ("message", .undefined)]) "success" =
      .ok (.bool true) :=
  (c8_success_flag_always_true (.obj []) (.ok (.obj [])) "t"
      ⟨.toSender, "registration-response",
        .obj [("success", .bool true), ("id", .undefined),
              ("name", .undefined), ("message", .undefined)]⟩).1
    (by simp [registerFaceHandler, getField]) rfl

/-- C9: a `register-face` payload that omits `metadata`, or supplies a
falsy value for it, is not rejected: the upstream POST is still issued
and its body carries `metadata: {}` (the empty mapping), by the
`data.metadata || {}` default. -/
theorem c9_metadata_defaults (n img md : JSVal)
    (upstream : Except String JSVal) (ts : String)
    (hmd : truthy md = false) :
    (registerFaceHandler (.obj [("name", n), ("image", img)])
        upstream ts).request =
      some (.registerFace (.obj [("name", n), ("image", img),
        ("metadata", .obj [])])) ∧
    (registerFaceHandler (.obj [("name", n), ("image", img),
        ("metadata", md)]) upstream ts).request =
      some (.registerFace (.obj [("name", n), ("image", img),
        ("metadata", .obj [])])) := by
  refine ⟨?_, ?_⟩
  · cases upstream with
    | error e =>
        simp [registerFaceHandler, getField, jsOr, truthy, List.lookup]
    | ok respData =>
        cases respData <;>
          simp [registerFaceHandler, getField, jsOr, truthy, List.lookup]
  · cases upstream with
    | error e =>
        simp [registerFaceHandler, getField, jsOr, hmd, List.lookup]
    | ok respData =>
        cases respData <;>
          simp [registerFaceHandler, getField, jsOr, hmd, List.lookup]

/-- Witness for C9: a concrete registration with `metadata: null` still
issues the POST with an empty metadata mapping. -/
theorem c9_metadata_defaults_witness :
    (registerFaceHandler (.obj [("name", .str "bob"), ("image", .str "img"),
        ("metadata", .null)]) (.ok (.obj [])) "t").request =
      some (.registerFace (.obj [("name", .str "bob"), ("image", .str "img"),
        ("metadata", .obj [])])) :=
  (c9_metadata_defaults (.str "bob") (.str "img") .null
    (.ok (.obj [])) "t" rfl).2

/-- C10: on a successful registration the `new-face-registered`
broadcast carries the client-supplied name from the inbound payload,
while the `registration-response` to the originator carries the name
from the upstream body — so when the upstream changes the name the two
events carry different names. -/
theorem c10_broadcast_uses_client_name (cn un : String) (img i m : JSVal)
    (ts : String) :
    registerFaceHandler (.obj [("name", .str cn), ("image", img)])
      (.ok (.obj [("id", i), ("name", .str un), ("message", m)])) ts =
      ⟨some (.registerFace (.obj [("name", .str cn), ("image", img),
          ("metadata", .obj [])])),
       [⟨.toSender, "registration-response",
         .obj [("success", .bool true), ("id", i), ("name", .str un),
               ("message", m)]⟩,
        ⟨.toAll, "new-face-registered",
         .obj [("name", .str cn), ("timestamp", .str ts)]⟩]⟩ := by
  simp [registerFaceHandler, getField, jsOr, truthy, List.lookup]
